import Mathlib

/-!
Shallow embedding of the authentication middleware, the (spec-modelled) token
codec, and the Cloudflare upload client of the e-commercer API, together with
theorems settling the spec claims about them.

The middleware functions `CheckLoggedIn` and `ConfirmPassword` are embedded
from src/middleware/middleware.go as pure functions over an environment of
oracle results (`MwEnv`): the Authorization header value, the result of
`util.ExtractToken`, the result of `util.LoadPublicKey`, the cryptographic
properties of the presented JWT, the result of the session store lookup
`GetUser`, and the result of `CheckEmailConfirmation`.  Each run returns the
terminal outcome together with the ordered trace of side effects performed,
so that claims such as "the protected handler is not invoked" and "no store
access occurs" are statable.
-/

/-- Problem-details payload returned on every rejection
(meysamhadeli/problem-details as used by middleware.go). -/
structure ProblemDetail where
  status : Nat
  title : String
  detail : String
deriving DecidableEq

/-- The dedicated context-key type of middleware.go (`type contextKey string`),
kept distinct from plain strings. -/
structure ContextKey where
  key : String
deriving DecidableEq

/-- middleware.go line 19: `const UserKey contextKey = "user"`. -/
def UserKey : ContextKey := ⟨"user"⟩

/-- domain.Session (src/unnamed/part_001, domain session file). -/
structure Session where
  token : String
  name : String
  userID : String
  email : String
  avatarURL : String
deriving DecidableEq

/-- Sentinel error values compared by identity with errors.Is in the Go code.
`sessionNotFound` is domain.ErrSessionNotFound, `unexpectedMethod` is
domain.ErrorUnexpectedMethod, `tokenInvalid` is domain.ErrTokenInvalid;
`infrastructure` stands for any store/network/timeout failure and `errOther`
for any other error value. -/
inductive GoError where
  | sessionNotFound
  | unexpectedMethod
  | tokenInvalid
  | infrastructure (msg : String)
  | errOther (msg : String)
deriving DecidableEq

/-- The loaded ECDSA public key, kept abstract: only its availability matters
to the middleware. -/
structure PublicKey where
  keyID : Nat
deriving DecidableEq

/-- Cryptographic properties of the presented bearer token, as the jwt
library observes them: whether token.Method is of type
*jwt.SigningMethodECDSA, whether the signature verifies against the loaded
public key, and whether the registered claims (e.g. expiry) are valid. -/
structure JwtToken where
  isECDSA : Bool
  signatureValid : Bool
  claimsValid : Bool
deriving DecidableEq

/-- jwt.Parse with the key function of middleware.go lines 54-59: the key
function returns domain.ErrorUnexpectedMethod unless token.Method is
*jwt.SigningMethodECDSA, and jwt.Parse then verifies the signature and the
claims; the middleware treats any parse error or invalid token alike. -/
def jwtParse (t : JwtToken) : Except GoError Unit :=
  if ¬ t.isECDSA then .error .unexpectedMethod
  else if t.signatureValid && t.claimsValid then .ok ()
  else .error .tokenInvalid

/-- Side effects a middleware run can perform, in order. -/
inductive Event where
  | extractToken
  | loadKey
  | parseToken
  | getUser
  | checkEmail
  | invokeHandler
deriving DecidableEq

/-- Terminal outcome of a middleware run: either a JSON problem rejection, or
the protected handler invoked with the resolved session attached to the
request context under the given key. -/
inductive MwResult where
  | reject (p : ProblemDetail)
  | next (key : ContextKey) (user : Session)
deriving DecidableEq

/-- Oracle environment for one request: the Authorization header and the
results the middleware would obtain from its collaborators on this request. -/
structure MwEnv where
  authorizationHeader : String
  extractResult : Except GoError String
  keyLoadResult : Except GoError PublicKey
  token : JwtToken
  getUserResult : Except GoError Session
  emailCheckResult : Option GoError

/-- middleware.go lines 29-33 and 105-112: 401 "Access Denied". -/
def accessDeniedProblem : ProblemDetail :=
  { status := 401, title := "Access Denied",
    detail := "You need to be logged in to access this resource." }

/-- middleware.go lines 37-42: 401 "Invalid Session" on token extraction
failure. -/
def extractFailureProblem : ProblemDetail :=
  { status := 401, title := "Invalid Session",
    detail := "Your session is invalid or missing. Please log in again." }

/-- middleware.go lines 46-51: 500 on key-load failure in CheckLoggedIn. -/
def keyLoadProblemCL : ProblemDetail :=
  { status := 500, title := "Internal Server Error",
    detail := "Failed to load public key for token verification." }

/-- middleware.go ConfirmPassword key-load failure: 500 with a different
detail text. -/
def keyLoadProblemCP : ProblemDetail :=
  { status := 500, title := "Internal Server Error",
    detail := "Failed to verify your account." }

/-- middleware.go lines 61-67: 401 "Invalid Session" on signature, algorithm
or claims failure. -/
def invalidSessionProblem : ProblemDetail :=
  { status := 401, title := "Invalid Session",
    detail := "Your session is invalid. Please log in again." }

/-- middleware.go lines 71-77: 403 "Session Expired" when GetUser fails with
domain.ErrSessionNotFound. -/
def sessionExpiredProblem : ProblemDetail :=
  { status := 403, title := "Session Expired",
    detail := "Your session has expired. Please log in again to continue." }

/-- middleware.go lines 79-84: 401 "Unauthorized Access" when GetUser fails
with any other error. -/
def unauthorizedAccessProblem : ProblemDetail :=
  { status := 401, title := "Unauthorized Access",
    detail := "Your session is invalid. Please log in again." }

/-- middleware.go lines 86-92: 403 "Email Not Confirmed" when
CheckEmailConfirmation returns any error. -/
def emailNotConfirmedProblem : ProblemDetail :=
  { status := 403, title := "Email Not Confirmed",
    detail := "You need to confirm your email address before accessing this resource." }

/-- middleware.CheckLoggedIn (middleware.go lines 21-98), embedded as a pure
function of the request oracle environment, returning the terminal outcome
together with the trace of effects performed. -/
def CheckLoggedIn (env : MwEnv) : MwResult × List Event :=
  if env.authorizationHeader = "" then
    (.reject accessDeniedProblem, [])
  else
    match env.extractResult with
    | .error _ => (.reject extractFailureProblem, [.extractToken])
    | .ok _ =>
      match env.keyLoadResult with
      | .error _ => (.reject keyLoadProblemCL, [.extractToken, .loadKey])
      | .ok _ =>
        match jwtParse env.token with
        | .error _ =>
            (.reject invalidSessionProblem, [.extractToken, .loadKey, .parseToken])
        | .ok _ =>
          match env.getUserResult with
          | .error e =>
              if e = .sessionNotFound then
                (.reject sessionExpiredProblem,
                 [.extractToken, .loadKey, .parseToken, .getUser])
              else
                (.reject unauthorizedAccessProblem,
                 [.extractToken, .loadKey, .parseToken, .getUser])
          | .ok user =>
            match env.emailCheckResult with
            | some _ =>
                (.reject emailNotConfirmedProblem,
                 [.extractToken, .loadKey, .parseToken, .getUser, .checkEmail])
            | none =>
                (.next UserKey user,
                 [.extractToken, .loadKey, .parseToken, .getUser, .checkEmail,
                  .invokeHandler])

/-- middleware.ConfirmPassword (middleware.go lines 100-167): identical to
CheckLoggedIn except for the key-load detail text and the absence of the
email-confirmation gate. -/
def ConfirmPassword (env : MwEnv) : MwResult × List Event :=
  if env.authorizationHeader = "" then
    (.reject accessDeniedProblem, [])
  else
    match env.extractResult with
    | .error _ => (.reject extractFailureProblem, [.extractToken])
    | .ok _ =>
      match env.keyLoadResult with
      | .error _ => (.reject keyLoadProblemCP, [.extractToken, .loadKey])
      | .ok _ =>
        match jwtParse env.token with
        | .error _ =>
            (.reject invalidSessionProblem, [.extractToken, .loadKey, .parseToken])
        | .ok _ =>
          match env.getUserResult with
          | .error e =>
              if e = .sessionNotFound then
                (.reject sessionExpiredProblem,
                 [.extractToken, .loadKey, .parseToken, .getUser])
              else
                (.reject unauthorizedAccessProblem,
                 [.extractToken, .loadKey, .parseToken, .getUser])
          | .ok user =>
              (.next UserKey user,
               [.extractToken, .loadKey, .parseToken, .getUser, .invokeHandler])

/-- True on the error branch of a Go-style fallible call. -/
def exIsError {α : Type} : Except GoError α → Bool
  | .error _ => true
  | .ok _ => false

/-- Status and title of a rejecting run, none when the handler was admitted. -/
def statusTitleOf : MwResult × List Event → Option (Nat × String)
  | (.reject p, _) => some (p.status, p.title)
  | (.next _ _, _) => none

/-- The run rejected (did not reach the protected handler). -/
def isReject : MwResult → Bool
  | .reject _ => true
  | .next _ _ => false

/-- An environment is rejected before the account-status gate: missing
header, extraction failure, key-load failure, signature/algorithm failure,
or session-lookup failure. -/
def preGateReject (env : MwEnv) : Bool :=
  (env.authorizationHeader = "") || exIsError env.extractResult
    || exIsError env.keyLoadResult || exIsError (jwtParse env.token)
    || exIsError env.getUserResult

/-- All checks shared by both variants pass, plus the email gate of
CheckLoggedIn. -/
def allChecksPassCL (env : MwEnv) : Bool :=
  (env.authorizationHeader != "") && !exIsError env.extractResult
    && !exIsError env.keyLoadResult && !exIsError (jwtParse env.token)
    && !exIsError env.getUserResult && env.emailCheckResult.isNone

/-- All checks of ConfirmPassword pass (no email gate there). -/
def allChecksPassCP (env : MwEnv) : Bool :=
  (env.authorizationHeader != "") && !exIsError env.extractResult
    && !exIsError env.keyLoadResult && !exIsError (jwtParse env.token)
    && !exIsError env.getUserResult

/-- Sample session for concrete runs. -/
def sampleSession : Session :=
  { token := "tok", name := "Ana",
    userID := "6f1d2c3b-0000-4000-8000-000000000001",
    email := "ana@example.com", avatarURL := "" }

/-- Sample loaded public key. -/
def samplePublicKey : PublicKey := ⟨1⟩

/-- A well-formed ECDSA token that verifies. -/
def goodToken : JwtToken :=
  { isECDSA := true, signatureValid := true, claimsValid := true }

/-- Fully successful request environment. -/
def envAllOk : MwEnv :=
  { authorizationHeader := "Bearer tok", extractResult := .ok "tok",
    keyLoadResult := .ok samplePublicKey, token := goodToken,
    getUserResult := .ok sampleSession, emailCheckResult := none }

/-- Same request, but the session store lookup fails with an infrastructure
error (store unreachable). -/
def envStoreDown : MwEnv :=
  { envAllOk with getUserResult := .error (.infrastructure "redis: connection refused") }

/-- Same request, but the session entry is absent from the store. -/
def envSessionGone : MwEnv :=
  { envAllOk with getUserResult := .error .sessionNotFound }

/-- Same request, but loading the public key fails. -/
def envKeyErr : MwEnv :=
  { envAllOk with keyLoadResult := .error (.errOther "open key file: no such file") }

/-- Same request, but the email-confirmation check fails for an
infrastructure reason, not because the email is unconfirmed. -/
def envEmailInfra : MwEnv :=
  { envAllOk with emailCheckResult := some (.infrastructure "db down") }

/-- Same request, but the presented token is HMAC-signed (not ECDSA), with a
signature that would otherwise verify. -/
def envWrongAlg : MwEnv :=
  { envAllOk with token := { isECDSA := false, signatureValid := true, claimsValid := true } }

/-- Signing-algorithm tag carried in a token header. -/
inductive SigMethod where
  | es256
  | hs256
  | rs256
deriving DecidableEq

/-- Modelled from the spec: the Token Codec of spec section 4.2. Its source
(the util token functions Issue and Verify) is not among the provided files;
only the middleware caller and the domain error values are.  A token carries
subject identifier, issued-at, expiry and a signature; the configured
algorithm family is ECDSA-class. -/
structure Token where
  subjectID : String
  issuedAt : Nat
  expiry : Nat
  method : SigMethod
  signedWithConfiguredKey : Bool
deriving DecidableEq

/-- Failures of Verify per spec section 4.2. -/
inductive VerifyError where
  | tokenInvalid
  | tokenExpired
  | unexpectedSigningMethod
deriving DecidableEq

/-- Modelled from the spec: Issue(subjectID, validity) produces a signature
over a payload containing the subject identifier, issued-at, and an expiry
timestamp equal to issued-at plus validity, using the configured
elliptic-curve key (spec section 4.2).  `now` is the issuing clock. -/
def Issue (subjectID : String) (validity : Nat) (now : Nat) : Token :=
  { subjectID := subjectID, issuedAt := now, expiry := now + validity,
    method := .es256, signedWithConfiguredKey := true }

/-- Modelled from the spec: Verify(tokenString) checks the signing-method tag
matches the expected family before trusting any decoded field, checks the
signature against the public key, and checks expiry strictly (expiry at or
before now means TokenExpired) — spec section 4.2. -/
def Verify (t : Token) (now : Nat) : Except VerifyError String :=
  if t.method ≠ .es256 then .error .unexpectedSigningMethod
  else if ¬ t.signedWithConfiguredKey then .error .tokenInvalid
  else if t.expiry ≤ now then .error .tokenExpired
  else .ok t.subjectID

/-- client.CloudflareResponse.Result (cloudFlare.go lines 46-52). -/
structure CloudflareResult where
  id : String
  filename : String
  uploaded : String
  requireSignedURLs : Bool
  variants : List String
deriving DecidableEq

/-- client.CloudflareResponse (cloudFlare.go lines 45-58); error entries are
kept as their message strings. -/
structure CloudflareResponse where
  result : CloudflareResult
  success : Bool
  errors : List String
  messages : List String
deriving DecidableEq

/-- Sentinel upload errors of cloudFlare.go relevant to the response-handling
tail. -/
inductive UploadErr where
  | errUploadFailed
  | errDecodeJSON
  | errCloudflareFailed
deriving DecidableEq

/-- The response-handling tail of client.UploadImage (cloudFlare.go lines
117-137), embedded from the HTTP status check onward: `statusCode` is the
Cloudflare HTTP status and `decodeResult` the outcome of unmarshalling the
body.  The Go code returns cloudflareResp.Result.Variants[0] on the success
path; in this total embedding that index access is List.get? 0, and `none`
for the whole run marks the out-of-bounds panic that has no return value. -/
def UploadImage (statusCode : Nat) (decodeResult : Except UploadErr CloudflareResponse) :
    Option (Except UploadErr String) :=
  if statusCode ≠ 200 then some (.error .errUploadFailed)
  else
    match decodeResult with
    | .error _ => some (.error .errDecodeJSON)
    | .ok resp =>
      if ¬ resp.success then some (.error .errCloudflareFailed)
      else (resp.result.variants.get? 0).map Except.ok

/-- A syntactically valid Cloudflare response with Success true and an empty
Variants list. -/
def emptyVariantsResp : CloudflareResponse :=
  { result := { id := "img-1", filename := "a.png", uploaded := "2024-01-01",
                requireSignedURLs := false, variants := [] },
    success := true, errors := [], messages := [] }

/-- Request with the header present but no Authorization header value. -/
def envNoHeader : MwEnv :=
  { envAllOk with authorizationHeader := "" }

/-- Same request, but the email-confirmation check reports the email as not
confirmed. -/
def envEmailUnconfirmed : MwEnv :=
  { envAllOk with emailCheckResult := some (.errOther "email not confirmed") }

/-- C1: the code, not the claim: when GetUser fails with an infrastructure
error (store unreachable), CheckLoggedIn responds 401 "Unauthorized Access"
rather than the 500-class response the claim requires; the handler is still
not invoked. -/
theorem c1_infrastructure_failure_observed :
    CheckLoggedIn envStoreDown =
      (.reject unauthorizedAccessProblem,
       [.extractToken, .loadKey, .parseToken, .getUser])
    ∧ unauthorizedAccessProblem.status = 401
    ∧ unauthorizedAccessProblem.status ≠ 500
    ∧ Event.invokeHandler ∉ (CheckLoggedIn envStoreDown).snd := by
  refine ⟨rfl, rfl, by decide, by decide⟩

/-- C2 counterexample: with a cryptographically valid token whose session is
absent from the store, CheckLoggedIn rejects with status 403, not the 401 the
claim states. -/
theorem c2_counterexample :
    CheckLoggedIn envSessionGone =
      (.reject sessionExpiredProblem,
       [.extractToken, .loadKey, .parseToken, .getUser])
    ∧ sessionExpiredProblem.status = 403
    ∧ sessionExpiredProblem.status ≠ 401 := by
  refine ⟨rfl, rfl, by decide⟩

/-- C2 amended: when GetUser fails with ErrSessionNotFound after the
cryptographic checks pass, the middleware rejects with status 403 and title
"Session Expired", via a response distinct from the signature-failure
response, and the protected handler is not invoked. -/
theorem c2_session_not_found_403 (env : MwEnv) (ts : String) (k : PublicKey)
    (h1 : env.authorizationHeader ≠ "") (h2 : env.extractResult = .ok ts)
    (h3 : env.keyLoadResult = .ok k) (h4 : jwtParse env.token = .ok ())
    (h5 : env.getUserResult = .error .sessionNotFound) :
    CheckLoggedIn env =
      (.reject sessionExpiredProblem,
       [.extractToken, .loadKey, .parseToken, .getUser])
    ∧ sessionExpiredProblem ≠ invalidSessionProblem
    ∧ Event.invokeHandler ∉ [Event.extractToken, Event.loadKey,
        Event.parseToken, Event.getUser] := by
  refine ⟨?_, by decide, by decide⟩
  simp [CheckLoggedIn, h1, h2, h3, h4, h5]

/-- C2 witness: the amended theorem at a concrete request. -/
theorem c2_witness :
    CheckLoggedIn envSessionGone =
      (.reject sessionExpiredProblem,
       [.extractToken, .loadKey, .parseToken, .getUser])
    ∧ sessionExpiredProblem ≠ invalidSessionProblem
    ∧ Event.invokeHandler ∉ [Event.extractToken, Event.loadKey,
        Event.parseToken, Event.getUser] :=
  c2_session_not_found_403 envSessionGone "tok" samplePublicKey
    (by decide) rfl rfl rfl rfl

/-- C3: a token whose signing method is not of the ECDSA family is rejected
by the parse step with the algorithm-mismatch error ErrorUnexpectedMethod,
whatever its signature bit, and CheckLoggedIn then rejects 401 "Invalid
Session" without invoking the handler. -/
theorem c3_algorithm_mismatch (env : MwEnv) (ts : String) (k : PublicKey)
    (h1 : env.authorizationHeader ≠ "") (h2 : env.extractResult = .ok ts)
    (h3 : env.keyLoadResult = .ok k) (h4 : env.token.isECDSA = false) :
    jwtParse env.token = .error .unexpectedMethod
    ∧ CheckLoggedIn env =
        (.reject invalidSessionProblem, [.extractToken, .loadKey, .parseToken])
    ∧ invalidSessionProblem.status = 401
    ∧ invalidSessionProblem.title = "Invalid Session"
    ∧ Event.invokeHandler ∉ [Event.extractToken, Event.loadKey, Event.parseToken] := by
  have hp : jwtParse env.token = .error .unexpectedMethod := by
    simp [jwtParse, h4]
  exact ⟨hp, by simp [CheckLoggedIn, h1, h2, h3, hp], rfl, rfl, by decide⟩

/-- C3 witness: a concrete non-ECDSA token carrying a valid signature. -/
theorem c3_witness :
    (jwtParse envWrongAlg.token = .error .unexpectedMethod
      ∧ CheckLoggedIn envWrongAlg =
          (.reject invalidSessionProblem, [.extractToken, .loadKey, .parseToken])
      ∧ invalidSessionProblem.status = 401
      ∧ invalidSessionProblem.title = "Invalid Session"
      ∧ Event.invokeHandler ∉ [Event.extractToken, Event.loadKey, Event.parseToken])
    ∧ envWrongAlg.token.signatureValid = true :=
  ⟨c3_algorithm_mismatch envWrongAlg "tok" samplePublicKey (by decide) rfl rfl rfl,
   rfl⟩

/-- C4: round-trip of the (spec-modelled) codec: verifying Issue(s, v) at
any time strictly before the expiry returns s. -/
theorem c4_issue_verify_roundtrip (s : String) (v now tv : Nat)
    (h : tv < (Issue s v now).expiry) :
    Verify (Issue s v now) tv = .ok s := by
  simp only [Issue] at h
  simp [Issue, Verify, Nat.not_le.mpr h]

/-- C4 witness: a concrete issued token verified before expiry. -/
theorem c4_witness : Verify (Issue "user-1" 3600 100) 200 = .ok "user-1" :=
  c4_issue_verify_roundtrip "user-1" 3600 100 200 (by decide)

/-- C5 counterexample: when the email-confirmation check fails for an
infrastructure reason (not an unconfirmed email), CheckLoggedIn still
responds 403 "Email Not Confirmed", not the 500-class fault the claim
states for that case. -/
theorem c5_counterexample :
    envEmailInfra.emailCheckResult = some (.infrastructure "db down")
    ∧ CheckLoggedIn envEmailInfra =
        (.reject emailNotConfirmedProblem,
         [.extractToken, .loadKey, .parseToken, .getUser, .checkEmail])
    ∧ emailNotConfirmedProblem.status = 403
    ∧ emailNotConfirmedProblem.status ≠ 500 := by
  refine ⟨rfl, rfl, rfl, by decide⟩

/-- C5 amended: every failure of the email-confirmation check — unconfirmed
email and infrastructure faults alike — makes CheckLoggedIn reject with 403
"Email Not Confirmed" (distinct from the 401 authentication failures), and
the protected handler is not invoked. -/
theorem c5_email_check_failure_403 (env : MwEnv) (ts : String) (k : PublicKey)
    (u : Session) (e : GoError)
    (h1 : env.authorizationHeader ≠ "") (h2 : env.extractResult = .ok ts)
    (h3 : env.keyLoadResult = .ok k) (h4 : jwtParse env.token = .ok ())
    (h5 : env.getUserResult = .ok u) (h6 : env.emailCheckResult = some e) :
    CheckLoggedIn env =
      (.reject emailNotConfirmedProblem,
       [.extractToken, .loadKey, .parseToken, .getUser, .checkEmail])
    ∧ emailNotConfirmedProblem.status = 403
    ∧ emailNotConfirmedProblem.status ≠ 401
    ∧ Event.invokeHandler ∉ [Event.extractToken, Event.loadKey,
        Event.parseToken, Event.getUser, Event.checkEmail] := by
  refine ⟨?_, rfl, by decide, by decide⟩
  simp [CheckLoggedIn, h1, h2, h3, h4, h5, h6]

/-- C5 witness: the amended theorem at a concrete unconfirmed-email request. -/
theorem c5_witness :
    CheckLoggedIn envEmailUnconfirmed =
      (.reject emailNotConfirmedProblem,
       [.extractToken, .loadKey, .parseToken, .getUser, .checkEmail])
    ∧ emailNotConfirmedProblem.status = 403
    ∧ emailNotConfirmedProblem.status ≠ 401
    ∧ Event.invokeHandler ∉ [Event.extractToken, Event.loadKey,
        Event.parseToken, Event.getUser, Event.checkEmail] :=
  c5_email_check_failure_403 envEmailUnconfirmed "tok" samplePublicKey
    sampleSession (.errOther "email not confirmed")
    (by decide) rfl rfl rfl rfl rfl

/-- C6 counterexample: on the key-load failure path the two variants agree on
status and title but return different problem payloads (the detail texts
differ), so the variants do not differ only by the email-confirmation
check. -/
theorem c6_counterexample :
    (CheckLoggedIn envKeyErr).fst = .reject keyLoadProblemCL
    ∧ (ConfirmPassword envKeyErr).fst = .reject keyLoadProblemCP
    ∧ keyLoadProblemCL.status = keyLoadProblemCP.status
    ∧ keyLoadProblemCL.title = keyLoadProblemCP.title
    ∧ keyLoadProblemCL ≠ keyLoadProblemCP
    ∧ (CheckLoggedIn envKeyErr).fst ≠ (ConfirmPassword envKeyErr).fst := by
  refine ⟨rfl, rfl, rfl, rfl, by decide, by decide⟩

/-- C6 amended: on every request rejected before the account-status gate
(missing header, extraction failure, key-load failure, signature/algorithm
failure, or session-lookup failure) the two variants reject with the same
HTTP status and the same title; the variants additionally differ in the
detail text of the key-load rejection, beyond the email-confirmation check. -/
theorem c6_pre_gate_same_status_title (env : MwEnv)
    (h : preGateReject env = true) :
    statusTitleOf (CheckLoggedIn env) = statusTitleOf (ConfirmPassword env)
    ∧ (statusTitleOf (CheckLoggedIn env)).isSome = true := by
  obtain ⟨hdr, ext, key, tok, gu, ec⟩ := env
  by_cases hh : hdr = ""
  · simp [CheckLoggedIn, ConfirmPassword, statusTitleOf, hh]
  · cases ext with
    | error e => simp [CheckLoggedIn, ConfirmPassword, statusTitleOf, hh]
    | ok ts =>
      cases key with
      | error e =>
          simp [CheckLoggedIn, ConfirmPassword, statusTitleOf, hh,
            keyLoadProblemCL, keyLoadProblemCP]
      | ok k =>
        cases hp : jwtParse tok with
        | error e =>
            simp [CheckLoggedIn, ConfirmPassword, statusTitleOf, hh, hp]
        | ok u =>
          cases gu with
          | error e =>
              by_cases he : e = GoError.sessionNotFound <;>
                simp [CheckLoggedIn, ConfirmPassword, statusTitleOf, hh, hp, he]
          | ok u2 =>
              exfalso
              simp [preGateReject, exIsError, hh, hp] at h

/-- C6 witness: the amended theorem at a concrete key-load failure. -/
theorem c6_witness :
    preGateReject envKeyErr = true
    ∧ (statusTitleOf (CheckLoggedIn envKeyErr)
        = statusTitleOf (ConfirmPassword envKeyErr)
       ∧ (statusTitleOf (CheckLoggedIn envKeyErr)).isSome = true) :=
  ⟨by decide, c6_pre_gate_same_status_title envKeyErr (by decide)⟩

/-- C7: a request with an empty Authorization header is rejected by both
variants with 401 "Access Denied" and an empty effect trace: no token
extraction, no key load, no store access, no handler invocation. -/
theorem c7_missing_header (env : MwEnv) (h : env.authorizationHeader = "") :
    CheckLoggedIn env = (.reject accessDeniedProblem, [])
    ∧ ConfirmPassword env = (.reject accessDeniedProblem, [])
    ∧ accessDeniedProblem.status = 401
    ∧ accessDeniedProblem.title = "Access Denied" := by
  refine ⟨?_, ?_, rfl, rfl⟩ <;> simp [CheckLoggedIn, ConfirmPassword, h]

/-- C7 witness: a concrete header-less request. -/
theorem c7_witness :
    CheckLoggedIn envNoHeader = (.reject accessDeniedProblem, [])
    ∧ ConfirmPassword envNoHeader = (.reject accessDeniedProblem, [])
    ∧ accessDeniedProblem.status = 401
    ∧ accessDeniedProblem.title = "Access Denied" :=
  c7_missing_header envNoHeader rfl

/-- C8: a key-load failure is surfaced as a 500 "Internal Server Error" by
both variants, and the protected handler is not invoked. -/
theorem c8_key_load_failure_500 (env : MwEnv) (ts : String) (e : GoError)
    (h1 : env.authorizationHeader ≠ "") (h2 : env.extractResult = .ok ts)
    (h3 : env.keyLoadResult = .error e) :
    CheckLoggedIn env = (.reject keyLoadProblemCL, [.extractToken, .loadKey])
    ∧ ConfirmPassword env = (.reject keyLoadProblemCP, [.extractToken, .loadKey])
    ∧ keyLoadProblemCL.status = 500
    ∧ keyLoadProblemCP.status = 500
    ∧ Event.invokeHandler ∉ [Event.extractToken, Event.loadKey] := by
  refine ⟨?_, ?_, rfl, rfl, by decide⟩ <;>
    simp [CheckLoggedIn, ConfirmPassword, h1, h2, h3]

/-- C8 witness: a concrete request whose public key fails to load. -/
theorem c8_witness :
    CheckLoggedIn envKeyErr = (.reject keyLoadProblemCL, [.extractToken, .loadKey])
    ∧ ConfirmPassword envKeyErr = (.reject keyLoadProblemCP, [.extractToken, .loadKey])
    ∧ keyLoadProblemCL.status = 500
    ∧ keyLoadProblemCP.status = 500
    ∧ Event.invokeHandler ∉ [Event.extractToken, Event.loadKey] :=
  c8_key_load_failure_500 envKeyErr "tok" (.errOther "open key file: no such file")
    (by decide) rfl rfl

/-- C9: on each variant the protected handler is invoked exactly once when
every check passes and zero times otherwise; whenever the handler is reached
the resolved session is attached to the request context under UserKey, and
it is exactly the session resolved by GetUser; every other run is a
rejection, which attaches nothing (the only attaching outcome is
MwResult.next). -/
theorem c9_admit_reject_characterization (env : MwEnv) :
    ((CheckLoggedIn env).snd.count .invokeHandler
        = (if allChecksPassCL env then 1 else 0))
    ∧ (∀ k u, (CheckLoggedIn env).fst = .next k u →
        k = UserKey ∧ env.getUserResult = .ok u)
    ∧ (isReject (CheckLoggedIn env).fst = !allChecksPassCL env)
    ∧ ((ConfirmPassword env).snd.count .invokeHandler
        = (if allChecksPassCP env then 1 else 0))
    ∧ (∀ k u, (ConfirmPassword env).fst = .next k u →
        k = UserKey ∧ env.getUserResult = .ok u)
    ∧ (isReject (ConfirmPassword env).fst = !allChecksPassCP env) := by
  obtain ⟨hdr, ext, key, tok, gu, ec⟩ := env
  by_cases hh : hdr = ""
  · simp [CheckLoggedIn, ConfirmPassword, allChecksPassCL, allChecksPassCP,
      isReject, hh, List.count]
  · cases ext with
    | error e =>
        simp [CheckLoggedIn, ConfirmPassword, allChecksPassCL, allChecksPassCP,
          isReject, exIsError, hh, List.count]
    | ok ts =>
      cases key with
      | error e =>
          simp [CheckLoggedIn, ConfirmPassword, allChecksPassCL, allChecksPassCP,
            isReject, exIsError, hh, List.count]
      | ok k =>
        cases hp : jwtParse tok with
        | error e =>
            simp [CheckLoggedIn, ConfirmPassword, allChecksPassCL, allChecksPassCP,
              isReject, exIsError, hh, hp, List.count]
        | ok u =>
          cases gu with
          | error e =>
              by_cases he : e = GoError.sessionNotFound <;>
                simp [CheckLoggedIn, ConfirmPassword, allChecksPassCL,
                  allChecksPassCP, isReject, exIsError, hh, hp, he, List.count]
          | ok u2 =>
            cases ec with
            | some e =>
                simp [CheckLoggedIn, ConfirmPassword, allChecksPassCL,
                  allChecksPassCP, isReject, exIsError, hh, hp, List.count]
            | none =>
                simp [CheckLoggedIn, ConfirmPassword, allChecksPassCL,
                  allChecksPassCP, isReject, exIsError, hh, hp, List.count]

/-- C9 witness: the characterization at a fully successful request: the
handler runs exactly once with the sample session attached under UserKey. -/
theorem c9_witness :
    (CheckLoggedIn envAllOk).snd.count .invokeHandler
      = (if allChecksPassCL envAllOk then 1 else 0) :=
  (c9_admit_reject_characterization envAllOk).1

/-- C10: for every syntactically valid Cloudflare response with Success true
and an empty Variants list, the success branch of UploadImage has no return
value: the Variants[0] access is out of bounds, so the total embedding
yields none. -/
theorem c10_empty_variants_no_value (resp : CloudflareResponse)
    (h1 : resp.success = true) (h2 : resp.result.variants = []) :
    UploadImage 200 (.ok resp) = none := by
  simp [UploadImage, h1, h2]

/-- C10 witness: the concrete Success-true, empty-Variants response. -/
theorem c10_witness :
    emptyVariantsResp.success = true
    ∧ emptyVariantsResp.result.variants = []
    ∧ UploadImage 200 (.ok emptyVariantsResp) = none :=
  ⟨rfl, rfl, c10_empty_variants_no_value emptyVariantsResp rfl rfl⟩
